import Mathlib

/-!
# hipSPARSELt client arguments: field list, identifiers, dispatch entries, alpha/beta

A shallow embedding of `clients/include/rocsparselt_arguments.hpp`:

* the `Arguments` record and the order of its data members,
* the list `FOR_EACH_ARGUMENT` and the enum `rocsparselt_argument` built from it,
* `get_alpha<T>` / `get_beta<T>` (a NaN coefficient is replaced by `T(0)`),
* the specialisations of `ArgumentsHelper::apply<>` (C++17 branch; the C++14
  branch wraps the same lambdas, under the same indices, in `struct apply`).

Conventions of the embedding.  A generic lambda `[](auto&& func, ...)` is a
function that takes the formatter at every value type; the formatter's side
effects are made explicit as a state `σ` that each call transforms.  The 32-bit
`float` is its IEEE-754 binary32 encoding (sign, biased exponent, trailing
significand).  `char[64]` members are kept as the C string they hold.
-/

namespace rocsparselt

universe u

/-! ## Scalar types -/

/-- The C++ type `float`: an IEEE-754 binary32 datum, as sign bit, 8-bit biased
exponent and 23-bit trailing significand. -/
structure float where
  sign : Bool
  exponent : Fin 256
  mantissa : Fin 8388608
  deriving DecidableEq

/-- Modelled from the spec: `rocsparselt_isnan` is defined in `rocsparselt_math.hpp`,
which is not among the sources.  For a `float` it answers whether the value is a
NaN, i.e. the exponent is all ones and the significand is not zero. -/
def rocsparselt_isnan (x : float) : Bool :=
  x.exponent == 255 && x.mantissa != 0

abbrev int64_t := Int
abbrev int32_t := Int
abbrev int8_t := Int
abbrev size_t := Nat
abbrev uint32_t := Nat
abbrev uint16_t := Nat
abbrev uint8_t := Nat

/-- Modelled from the spec: `rocsparselt_datatype` is declared in `rocsparselt.h`, which
is not among the sources; a small enum, kept as its integer value. -/
structure rocsparselt_datatype where
  value : Int
  deriving DecidableEq

/-- Modelled from the spec: `rocsparselt_compute_type` is declared in `rocsparselt.h`,
which is not among the sources; a small enum, kept as its integer value. -/
structure rocsparselt_compute_type where
  value : Int
  deriving DecidableEq

/-- Modelled from the spec: `rocsparselt_prune_alg` is declared in `rocsparselt.h`, which
is not among the sources; a small enum, kept as its integer value. -/
structure rocsparselt_prune_alg where
  value : Int
  deriving DecidableEq

/-- Modelled from the spec: `rocsparselt_initialization` is declared in
`rocsparselt_datatype2string.hpp`, which is not among the sources; a small enum, kept
as its integer value. -/
structure rocsparselt_initialization where
  value : Int
  deriving DecidableEq

/-! ## The record -/

/-- The struct `Arguments`, data members in declaration order (lines 31-91). -/
structure Arguments where
  function : String
  name : String
  category : String
  known_bug_platforms : String
  alpha : float
  beta : float
  stride_a : int64_t
  stride_b : int64_t
  stride_c : int64_t
  stride_d : int64_t
  user_allocated_workspace : size_t
  M : int64_t
  N : int64_t
  K : int64_t
  lda : int64_t
  ldb : int64_t
  ldc : int64_t
  ldd : int64_t
  batch_count : int32_t
  iters : int32_t
  cold_iters : int32_t
  algo : uint32_t
  solution_index : int32_t
  a_type : rocsparselt_datatype
  b_type : rocsparselt_datatype
  c_type : rocsparselt_datatype
  d_type : rocsparselt_datatype
  compute_type : rocsparselt_compute_type
  prune_algo : rocsparselt_prune_alg
  initialization : rocsparselt_initialization
  pad : uint32_t
  threads : uint16_t
  streams : uint16_t
  devices : uint8_t
  norm_check : int8_t
  unit_check : int8_t
  timing : int8_t
  transA : Char
  transB : Char
  c_noalias_d : Bool
  HMM : Bool

/-- The names of the data members of `struct Arguments`, read off the struct body
(lines 31-91) in declaration order. -/
def Arguments_members : List String :=
  [ "function", "name", "category", "known_bug_platforms",
    "alpha", "beta",
    "stride_a", "stride_b", "stride_c", "stride_d",
    "user_allocated_workspace",
    "M", "N", "K",
    "lda", "ldb", "ldc", "ldd",
    "batch_count",
    "iters", "cold_iters",
    "algo", "solution_index",
    "a_type", "b_type", "c_type", "d_type", "compute_type",
    "prune_algo", "initialization",
    "pad",
    "threads", "streams",
    "devices",
    "norm_check", "unit_check", "timing",
    "transA", "transB",
    "c_noalias_d", "HMM" ]

/-! ## Alpha/beta conversion -/

/-- A target type `T` of `get_alpha<T>` / `get_beta<T>`: the two constructions the
code performs on it, `T(0)` from the literal zero and `T(r)` from a `float`. -/
structure NumericType where
  carrier : Type
  zero : carrier
  cast : float → carrier

/-- The member `convert_alpha_beta<T, U>(U r)`, at `U = float` (its only use): `T(r)`. -/
def convert_alpha_beta (T : NumericType) (r : float) : T.carrier :=
  T.cast r

/-- The member `alpha_isnan<T>()`. -/
def Arguments.alpha_isnan (arg : Arguments) (_T : NumericType) : Bool :=
  rocsparselt_isnan arg.alpha

/-- The member `beta_isnan<T>()`. -/
def Arguments.beta_isnan (arg : Arguments) (_T : NumericType) : Bool :=
  rocsparselt_isnan arg.beta

/-- The member `get_alpha<T>()`. -/
def Arguments.get_alpha (arg : Arguments) (T : NumericType) : T.carrier :=
  if arg.alpha_isnan T then T.zero else convert_alpha_beta T arg.alpha

/-- The member `get_beta<T>()`. -/
def Arguments.get_beta (arg : Arguments) (T : NumericType) : T.carrier :=
  if arg.beta_isnan T then T.zero else convert_alpha_beta T arg.beta

/-- The value `+0.0f`, which is what `float(0)` yields. -/
def float_zero : float := ⟨false, 0, 0⟩

/-- `T = float`: `float(0)` is `+0.0f` and `float(r)` of a `float` is `r` itself. -/
def float_t : NumericType where
  carrier := float
  zero := float_zero
  cast := fun r => r

/-- A complex number over `float`, as `std::complex<float>` stores it. -/
structure complex_float where
  re : float
  im : float
  deriving DecidableEq

/-- `T = complex<float>`: constructed from one real argument, the imaginary part
takes its default `float()`, which is `+0.0f`. -/
def complex_float_t : NumericType where
  carrier := complex_float
  zero := ⟨float_zero, float_zero⟩
  cast := fun r => ⟨r, float_zero⟩

/-! ## The field list and the identifiers -/

/-- The tokens that `FOR_EACH_ARGUMENT` hands to `OPER` (the macro parameter `NAME`). -/
inductive ArgumentName where
  | function
  | name
  | category
  | known_bug_platforms
  | alpha
  | beta
  | stride_a
  | stride_b
  | stride_c
  | stride_d
  | user_allocated_workspace
  | M
  | N
  | K
  | lda
  | ldb
  | ldc
  | ldd
  | batch_count
  | iters
  | cold_iters
  | algo
  | solution_index
  | a_type
  | b_type
  | c_type
  | d_type
  | compute_type
  | prune_algo
  | initialization
  | pad
  | threads
  | streams
  | devices
  | norm_check
  | unit_check
  | timing
  | transA
  | transB
  | c_noalias_d
  | HMM
  deriving DecidableEq

/-- The macro `FOR_EACH_ARGUMENT(OPER, SEP)` (lines 103-144): the tokens in the order
in which the macro applies `OPER` to them. -/
def FOR_EACH_ARGUMENT : List ArgumentName :=
  [ .function,
    .name,
    .category,
    .known_bug_platforms,
    .alpha,
    .beta,
    .stride_a,
    .stride_b,
    .stride_c,
    .stride_d,
    .user_allocated_workspace,
    .M,
    .N,
    .K,
    .lda,
    .ldb,
    .ldc,
    .ldd,
    .batch_count,
    .iters,
    .cold_iters,
    .algo,
    .solution_index,
    .a_type,
    .b_type,
    .c_type,
    .d_type,
    .compute_type,
    .prune_algo,
    .initialization,
    .pad,
    .threads,
    .streams,
    .devices,
    .norm_check,
    .unit_check,
    .timing,
    .transA,
    .transB,
    .c_noalias_d,
    .HMM ]

/-- The stringification `#NAME` of a token. -/
def ArgumentName.stringify : ArgumentName → String
  | .function => "function"
  | .name => "name"
  | .category => "category"
  | .known_bug_platforms => "known_bug_platforms"
  | .alpha => "alpha"
  | .beta => "beta"
  | .stride_a => "stride_a"
  | .stride_b => "stride_b"
  | .stride_c => "stride_c"
  | .stride_d => "stride_d"
  | .user_allocated_workspace => "user_allocated_workspace"
  | .M => "M"
  | .N => "N"
  | .K => "K"
  | .lda => "lda"
  | .ldb => "ldb"
  | .ldc => "ldc"
  | .ldd => "ldd"
  | .batch_count => "batch_count"
  | .iters => "iters"
  | .cold_iters => "cold_iters"
  | .algo => "algo"
  | .solution_index => "solution_index"
  | .a_type => "a_type"
  | .b_type => "b_type"
  | .c_type => "c_type"
  | .d_type => "d_type"
  | .compute_type => "compute_type"
  | .prune_algo => "prune_algo"
  | .initialization => "initialization"
  | .pad => "pad"
  | .threads => "threads"
  | .streams => "streams"
  | .devices => "devices"
  | .norm_check => "norm_check"
  | .unit_check => "unit_check"
  | .timing => "timing"
  | .transA => "transA"
  | .transB => "transB"
  | .c_noalias_d => "c_noalias_d"
  | .HMM => "HMM"

/-- The declared type of the member `arg.NAME`. -/
abbrev ArgumentName.type : ArgumentName → Type
  | .function => String
  | .name => String
  | .category => String
  | .known_bug_platforms => String
  | .alpha => float
  | .beta => float
  | .stride_a => int64_t
  | .stride_b => int64_t
  | .stride_c => int64_t
  | .stride_d => int64_t
  | .user_allocated_workspace => size_t
  | .M => int64_t
  | .N => int64_t
  | .K => int64_t
  | .lda => int64_t
  | .ldb => int64_t
  | .ldc => int64_t
  | .ldd => int64_t
  | .batch_count => int32_t
  | .iters => int32_t
  | .cold_iters => int32_t
  | .algo => uint32_t
  | .solution_index => int32_t
  | .a_type => rocsparselt_datatype
  | .b_type => rocsparselt_datatype
  | .c_type => rocsparselt_datatype
  | .d_type => rocsparselt_datatype
  | .compute_type => rocsparselt_compute_type
  | .prune_algo => rocsparselt_prune_alg
  | .initialization => rocsparselt_initialization
  | .pad => uint32_t
  | .threads => uint16_t
  | .streams => uint16_t
  | .devices => uint8_t
  | .norm_check => int8_t
  | .unit_check => int8_t
  | .timing => int8_t
  | .transA => Char
  | .transB => Char
  | .c_noalias_d => Bool
  | .HMM => Bool

/-- The member access `arg.NAME`. -/
def Arguments.member (arg : Arguments) : (NAME : ArgumentName) → NAME.type
  | .function => arg.function
  | .name => arg.name
  | .category => arg.category
  | .known_bug_platforms => arg.known_bug_platforms
  | .alpha => arg.alpha
  | .beta => arg.beta
  | .stride_a => arg.stride_a
  | .stride_b => arg.stride_b
  | .stride_c => arg.stride_c
  | .stride_d => arg.stride_d
  | .user_allocated_workspace => arg.user_allocated_workspace
  | .M => arg.M
  | .N => arg.N
  | .K => arg.K
  | .lda => arg.lda
  | .ldb => arg.ldb
  | .ldc => arg.ldc
  | .ldd => arg.ldd
  | .batch_count => arg.batch_count
  | .iters => arg.iters
  | .cold_iters => arg.cold_iters
  | .algo => arg.algo
  | .solution_index => arg.solution_index
  | .a_type => arg.a_type
  | .b_type => arg.b_type
  | .c_type => arg.c_type
  | .d_type => arg.d_type
  | .compute_type => arg.compute_type
  | .prune_algo => arg.prune_algo
  | .initialization => arg.initialization
  | .pad => arg.pad
  | .threads => arg.threads
  | .streams => arg.streams
  | .devices => arg.devices
  | .norm_check => arg.norm_check
  | .unit_check => arg.unit_check
  | .timing => arg.timing
  | .transA => arg.transA
  | .transB => arg.transB
  | .c_noalias_d => arg.c_noalias_d
  | .HMM => arg.HMM

/-- The numbering an enum body gives its enumerators: the first one gets `next`,
every following one the value of its predecessor plus one. -/
def CREATE_ENUM : List ArgumentName → Int → List (ArgumentName × Int)
  | [], _ => []
  | NAME :: rest, next => (NAME, next) :: CREATE_ENUM rest (next + 1)

/-- The type `enum rocsparselt_argument : int`: its values are those of `int`
(the code itself forms `rocsparselt_argument(-1)` and `rocsparselt_argument(-2)`). -/
abbrev rocsparselt_argument := Int

/-- The enumerators of `enum rocsparselt_argument : int` with their values:
`FOR_EACH_ARGUMENT(CREATE_ENUM, )` inside the enum body, numbered from 0. -/
def rocsparselt_argument_enumerators : List (ArgumentName × Int) :=
  CREATE_ENUM FOR_EACH_ARGUMENT 0

/-- The enumerator `e_##NAME`.  Every token of `FOR_EACH_ARGUMENT` has one, so the
fallback is never taken (`e_defined` below). -/
def e_ (NAME : ArgumentName) : rocsparselt_argument :=
  match rocsparselt_argument_enumerators.lookup NAME with
  | some v => v
  | none => 0

/-- The enumerator `e_alpha`. -/
def e_alpha : rocsparselt_argument := e_ .alpha

/-- The enumerator `e_beta`. -/
def e_beta : rocsparselt_argument := e_ .beta

/-! ## The dispatch entries -/

/-- The first parameter `auto&& func` of a dispatch lambda: a callable taking a
name and a value of any type; `σ` is the state its call acts on. -/
def Formatter (σ : Type u) : Type (max 1 u) :=
  (α : Type) → String → α → σ → σ

/-- A dispatch lambda `[](auto&& func, const Arguments& arg, auto T) ...`: the third
parameter is a value of the target type, of which the lambdas use the type only. -/
def Closure : Type (max 1 (u + 1)) :=
  (σ : Type u) → Formatter σ → Arguments → (T : NumericType) → T.carrier → σ → σ

/-- The macro `APPLY(NAME)` (lines 259-264): one explicit specialisation of `apply`,
as the template argument it is declared at and the lambda it is initialised with. -/
def APPLY (NAME : ArgumentName) : rocsparselt_argument × Closure.{u} :=
  (if e_ NAME = e_alpha then -1 else if e_ NAME = e_beta then -2 else e_ NAME,
   fun _ func arg _ _ s => func NAME.type NAME.stringify (arg.member NAME) s)

/-- The lambda of the specialisation `apply<e_alpha>` (lines 270-274). -/
def apply_e_alpha : Closure.{u} :=
  fun _ func arg T _ s => func T.carrier "alpha" (arg.get_alpha T) s

/-- The lambda of the specialisation `apply<e_beta>` (lines 277-281). -/
def apply_e_beta : Closure.{u} :=
  fun _ func arg T _ s => func T.carrier "beta" (arg.get_beta T) s

/-- All explicit specialisations of `ArgumentsHelper::apply`, in source order:
`FOR_EACH_ARGUMENT(APPLY, ;)`, then the ones for `e_alpha` and `e_beta`. -/
def specializations : List (rocsparselt_argument × Closure.{u}) :=
  FOR_EACH_ARGUMENT.map APPLY ++ [(e_alpha, apply_e_alpha), (e_beta, apply_e_beta)]

/-- The variable template `ArgumentsHelper::apply<id>`: the lambda of the explicit
specialisation at `id`, or the primary template's `nullptr` (here `none`). -/
def apply (id : rocsparselt_argument) : Option Closure.{u} :=
  specializations.lookup id

/-- The lambda held at the identifier of a field: the hand-written one for alpha
and beta, the one made by `APPLY` for every other field. -/
def entry_at_e (NAME : ArgumentName) : Closure.{u} :=
  match NAME with
  | .alpha => apply_e_alpha
  | .beta => apply_e_beta
  | other => (APPLY other).2

/-! ## Walking the field list -/

/-- Modelled from the spec: the Writer's walk (section 4.4); the stream operators are
only declared in the header.  It goes through a list of fields in order, resolves
each field's dispatch entry by the field's identifier and invokes it with the
formatter; a null entry cannot be invoked, which ends the walk without a result. -/
def walk (σ : Type u) (func : Formatter σ) (arg : Arguments) (T : NumericType)
    (tag : T.carrier) : List ArgumentName → σ → Option σ
  | [], s => some s
  | NAME :: rest, s =>
    match apply (e_ NAME) with
    | none => none
    | some entry => walk σ func arg T tag rest (entry σ func arg T tag s)

/-- One call `func(name, value)` as a formatter sees it. -/
structure Presented where
  type : Type
  name : String
  value : type

/-- A formatter that appends each call it receives to a log. -/
def record : Formatter (List Presented) :=
  fun α name value log => log ++ [⟨α, name, value⟩]

/-- A formatter that appends the name of each call it receives to a log. -/
def record_name : Formatter (List String) :=
  fun _ name _ log => log ++ [name]

/-! ## Sample values -/

/-- A quiet NaN (bits 0x7FC00000). -/
def float_nan : float := ⟨false, 255, 4194304⟩

/-- The value 2.5f (bits 0x40200000). -/
def float_2_5 : float := ⟨false, 128, 2097152⟩

/-- Positive infinity (bits 0x7F800000). -/
def float_pos_inf : float := ⟨false, 255, 0⟩

/-- Negative infinity (bits 0xFF800000). -/
def float_neg_inf : float := ⟨true, 255, 0⟩

/-- The smallest positive subnormal (bits 0x00000001). -/
def float_min_subnormal : float := ⟨false, 0, 1⟩

/-- The record of the spec's example scenario: alpha = NaN, beta = 2.5, M = 128,
N = 64, K = 32, transA = 'N'; the members the scenario leaves open are zero or empty. -/
def example_arg : Arguments where
  function := ""
  name := ""
  category := ""
  known_bug_platforms := ""
  alpha := float_nan
  beta := float_2_5
  stride_a := 0
  stride_b := 0
  stride_c := 0
  stride_d := 0
  user_allocated_workspace := 0
  M := 128
  N := 64
  K := 32
  lda := 0
  ldb := 0
  ldc := 0
  ldd := 0
  batch_count := 0
  iters := 0
  cold_iters := 0
  algo := 0
  solution_index := 0
  a_type := ⟨0⟩
  b_type := ⟨0⟩
  c_type := ⟨0⟩
  d_type := ⟨0⟩
  compute_type := ⟨0⟩
  prune_algo := ⟨0⟩
  initialization := ⟨0⟩
  pad := 0
  threads := 0
  streams := 0
  devices := 0
  norm_check := 0
  unit_check := 0
  timing := 0
  transA := 'N'
  transB := 'N'
  c_noalias_d := false
  HMM := false



/-! ## Auxiliary facts about the tables -/

/-- Every token of the field list has an enumerator: the fallback of `e_` is dead. -/
theorem e_defined (NAME : ArgumentName) :
    rocsparselt_argument_enumerators.lookup NAME = some (e_ NAME) := by
  cases NAME <;> rfl

/-- The values of the enumerators, in the order of the field list. -/
theorem e_values :
    FOR_EACH_ARGUMENT.map e_ =
      [0, 1, 2, 3, 4, 5, 6, 7, 8, 9, 10, 11, 12, 13, 14, 15, 16, 17, 18, 19, 20,
       21, 22, 23, 24, 25, 26, 27, 28, 29, 30, 31, 32, 33, 34, 35, 36, 37, 38, 39, 40] := by
  decide

/-- Every token occurs in the field list. -/
theorem mem_FOR_EACH_ARGUMENT (NAME : ArgumentName) : NAME ∈ FOR_EACH_ARGUMENT := by
  cases NAME <;> decide

/-- The template arguments at which `apply` is explicitly specialised, in source order. -/
theorem specializations_keys :
    (specializations.{u}).map Prod.fst =
      [0, 1, 2, 3, -1, -2, 6, 7, 8, 9, 10, 11, 12, 13, 14, 15, 16, 17, 18, 19, 20,
       21, 22, 23, 24, 25, 26, 27, 28, 29, 30, 31, 32, 33, 34, 35, 36, 37, 38, 39, 40,
       4, 5] := by
  rfl

/-- No template argument is specialised twice (C++ would reject a redefinition), so
the order in which `apply` searches the specialisations is immaterial. -/
theorem specializations_keys_nodup : ((specializations.{u}).map Prod.fst).Nodup := by
  rw [specializations_keys]; decide

/-- The entry found at the identifier of a field other than alpha and beta is the
one `APPLY` made for that field. -/
theorem apply_e_of_ordinary (NAME : ArgumentName) (hα : NAME ≠ .alpha) (hβ : NAME ≠ .beta) :
    apply.{u} (e_ NAME) = some (APPLY NAME).2 := by
  cases NAME <;> first | contradiction | rfl

/-- The entry found at `e_alpha` is the hand-written specialisation. -/
theorem apply_at_e_alpha : apply.{u} e_alpha = some apply_e_alpha := rfl

/-- The entry found at `e_beta` is the hand-written specialisation. -/
theorem apply_at_e_beta : apply.{u} e_beta = some apply_e_beta := rfl

/-- The entry found at -1 is the one `APPLY` made for alpha. -/
theorem apply_at_minus_one : apply.{u} (-1) = some (APPLY .alpha).2 := rfl

/-- The entry found at -2 is the one `APPLY` made for beta. -/
theorem apply_at_minus_two : apply.{u} (-2) = some (APPLY .beta).2 := rfl

/-- Looking up a key that no pair of an association list carries finds nothing. -/
theorem lookup_none_of_not_mem {β : Type u} (k : Int) :
    ∀ l : List (Int × β), k ∉ l.map Prod.fst → l.lookup k = none
  | [], _ => rfl
  | (a, b) :: l, h => by
    have h1 : k ≠ a := fun e => h (by simp [e])
    have h2 : k ∉ l.map Prod.fst := fun m => h (by simp at m ⊢; exact Or.inr m)
    have h3 : (k == a) = false := by simpa using h1
    simp [List.lookup, h3, lookup_none_of_not_mem k l h2]

/-- The primary template answers at every integer below -2 and above 40. -/
theorem apply_none_of_outside (id : Int) (h : id < -2 ∨ 40 < id) :
    apply.{u} id = none := by
  apply lookup_none_of_not_mem
  rw [specializations_keys]
  intro hmem
  simp only [List.mem_cons, List.mem_singleton, List.not_mem_nil, or_false] at hmem
  omega

/-- Every integer from 0 to 40 is the value of an enumerator. -/
theorem e_onto (i : Int) (h0 : 0 ≤ i) (h1 : i ≤ 40) : ∃ NAME, e_ NAME = i := by
  have hmem : i ∈ FOR_EACH_ARGUMENT.map e_ := by
    rw [e_values]
    simp only [List.mem_cons, List.mem_singleton, List.not_mem_nil]
    omega
  obtain ⟨NAME, _, hN⟩ := List.mem_map.mp hmem
  exact ⟨NAME, hN⟩

/-- The identifier of every field has a dispatch entry, namely `entry_at_e`. -/
theorem apply_e (NAME : ArgumentName) : apply.{u} (e_ NAME) = some (entry_at_e NAME) := by
  cases NAME <;> rfl

/-- A walk never meets a null entry: it is the left-to-right composition of the
entries of the fields it goes through. -/
theorem walk_eq_foldl (σ : Type u) (func : Formatter σ) (arg : Arguments) (T : NumericType)
    (tag : T.carrier) :
    ∀ (l : List ArgumentName) (s : σ),
      walk σ func arg T tag l s
        = some (l.foldl (fun acc NAME => entry_at_e NAME σ func arg T tag acc) s)
  | [], _ => rfl
  | NAME :: rest, s => by
    simp only [walk, apply_e, List.foldl_cons]
    exact walk_eq_foldl σ func arg T tag rest _

/-- Under the name-collecting formatter the entry of a field appends the field's name. -/
theorem entry_at_e_record_name (NAME : ArgumentName) (arg : Arguments) (T : NumericType)
    (tag : T.carrier) (acc : List String) :
    entry_at_e NAME _ record_name arg T tag acc = acc ++ [NAME.stringify] := by
  cases NAME <;> rfl

/-- Under the collecting formatter the entry of a field appends one call, which
carries the field's name. -/
theorem entry_at_e_record (NAME : ArgumentName) (arg : Arguments) (T : NumericType)
    (tag : T.carrier) :
    ∃ p : Presented, p.name = NAME.stringify ∧
      ∀ acc : List Presented, entry_at_e NAME _ record arg T tag acc = acc ++ [p] := by
  cases NAME <;> exact ⟨_, rfl, fun _ => rfl⟩

/-- The names collected along a list of fields are the names of the fields, in order. -/
theorem foldl_record_name (arg : Arguments) (T : NumericType) (tag : T.carrier) :
    ∀ (l : List ArgumentName) (acc : List String),
      l.foldl (fun acc NAME => entry_at_e NAME _ record_name arg T tag acc) acc
        = acc ++ l.map ArgumentName.stringify
  | [], acc => by simp
  | NAME :: rest, acc => by
    rw [List.foldl_cons, foldl_record_name arg T tag rest, entry_at_e_record_name]
    simp

/-- The calls collected along a list of fields are one per field and carry the
names of the fields, in order. -/
theorem foldl_record (arg : Arguments) (T : NumericType) (tag : T.carrier) :
    ∀ (l : List ArgumentName) (acc : List Presented),
      ∃ ps : List Presented,
        l.foldl (fun acc NAME => entry_at_e NAME _ record arg T tag acc) acc = acc ++ ps ∧
        ps.map Presented.name = l.map ArgumentName.stringify
  | [], acc => ⟨[], by simp, rfl⟩
  | NAME :: rest, acc => by
    obtain ⟨p, hp, happ⟩ := entry_at_e_record NAME arg T tag
    obtain ⟨ps, hps, hnames⟩ := foldl_record arg T tag rest (acc ++ [p])
    refine ⟨p :: ps, ?_, ?_⟩
    · simp only [List.foldl_cons, happ, hps]
      simp
    · simp [hp, hnames]

/-- The value `+0.0f` is not a NaN. -/
theorem float_zero_not_nan : rocsparselt_isnan float_zero = false := by decide

/-! ## Alpha/beta conversion: the claims -/

/-- C1: for every record and every target type T, get_alpha<T>() is T(0) when the
stored alpha is a NaN and T(alpha) otherwise; for T = complex<float> the result on
a non-NaN alpha has real part alpha and imaginary part zero; and with T = float a
NaN alpha (here the quiet NaN 0x7FC00000) gives exactly +0.0f. -/
theorem get_alpha_zero_or_cast (arg : Arguments) (T : NumericType) :
    (rocsparselt_isnan arg.alpha = true → arg.get_alpha T = T.zero) ∧
    (rocsparselt_isnan arg.alpha = false → arg.get_alpha T = T.cast arg.alpha) ∧
    (rocsparselt_isnan arg.alpha = false →
      (arg.get_alpha complex_float_t).re = arg.alpha ∧
      (arg.get_alpha complex_float_t).im = float_zero) ∧
    ({ arg with alpha := float_nan }).get_alpha float_t = float_zero := by
  refine ⟨?_, ?_, ?_, ?_⟩
  · intro h
    simp [Arguments.get_alpha, Arguments.alpha_isnan, h]
  · intro h
    simp [Arguments.get_alpha, Arguments.alpha_isnan, h, convert_alpha_beta]
  · intro h
    simp [Arguments.get_alpha, Arguments.alpha_isnan, h, convert_alpha_beta, complex_float_t]
  · rfl

/-- The record of the example scenario has a NaN alpha, so get_alpha<float>() is +0.0f
and get_alpha<complex<float>>() is (+0.0f, +0.0f). -/
theorem get_alpha_zero_or_cast_witness :
    rocsparselt_isnan example_arg.alpha = true ∧
    example_arg.get_alpha float_t = float_zero ∧
    example_arg.get_alpha complex_float_t = ⟨float_zero, float_zero⟩ :=
  ⟨by decide,
   (get_alpha_zero_or_cast example_arg float_t).1 (by decide),
   (get_alpha_zero_or_cast example_arg complex_float_t).1 (by decide)⟩

/-- C2: for every record and every target type T, get_beta<T>() is T(0) when the
stored beta is a NaN and T(beta) otherwise; the result does not change when alpha is
replaced by any other value; and with T = float, beta = 2.5f gives exactly 2.5f
whatever alpha is. -/
theorem get_beta_zero_or_cast (arg : Arguments) (T : NumericType) :
    (rocsparselt_isnan arg.beta = true → arg.get_beta T = T.zero) ∧
    (rocsparselt_isnan arg.beta = false → arg.get_beta T = T.cast arg.beta) ∧
    (∀ a : float, ({ arg with alpha := a }).get_beta T = arg.get_beta T) ∧
    (∀ a : float, ({ arg with alpha := a, beta := float_2_5 }).get_beta float_t = float_2_5) := by
  refine ⟨?_, ?_, ?_, ?_⟩
  · intro h
    simp [Arguments.get_beta, Arguments.beta_isnan, h]
  · intro h
    simp [Arguments.get_beta, Arguments.beta_isnan, h, convert_alpha_beta]
  · intro a
    rfl
  · intro a
    rfl

/-- The record of the example scenario has beta = 2.5f (and a NaN alpha), so
get_beta<float>() is 2.5f, also after alpha is overwritten. -/
theorem get_beta_zero_or_cast_witness :
    rocsparselt_isnan example_arg.beta = false ∧
    example_arg.get_beta float_t = float_2_5 ∧
    ({ example_arg with alpha := float_pos_inf }).get_beta float_t
      = example_arg.get_beta float_t :=
  ⟨by decide,
   (get_beta_zero_or_cast example_arg float_t).2.1 (by decide),
   (get_beta_zero_or_cast example_arg float_t).2.2.1 float_pos_inf⟩

/-- C10: with T = float, get_alpha and get_beta return the stored coefficient
unchanged exactly when it is not a NaN; infinities (exponent all ones, significand
zero) and subnormals (exponent zero) therefore pass through, as do the sample
values +inf, -inf and the smallest subnormal; and converting an already converted
coefficient returns it unchanged. -/
theorem float_coefficient_unchanged_unless_nan (arg : Arguments) :
    (arg.get_alpha float_t = arg.alpha ↔ rocsparselt_isnan arg.alpha = false) ∧
    (arg.get_beta float_t = arg.beta ↔ rocsparselt_isnan arg.beta = false) ∧
    (arg.alpha.exponent = 255 ∧ arg.alpha.mantissa = 0 → arg.get_alpha float_t = arg.alpha) ∧
    (arg.alpha.exponent = 0 → arg.get_alpha float_t = arg.alpha) ∧
    (arg.beta.exponent = 255 ∧ arg.beta.mantissa = 0 → arg.get_beta float_t = arg.beta) ∧
    (arg.beta.exponent = 0 → arg.get_beta float_t = arg.beta) ∧
    (∀ x ∈ [float_pos_inf, float_neg_inf, float_min_subnormal],
      ({ arg with alpha := x }).get_alpha float_t = x ∧
      ({ arg with beta := x }).get_beta float_t = x) ∧
    ({ arg with alpha := arg.get_alpha float_t }).get_alpha float_t = arg.get_alpha float_t ∧
    ({ arg with beta := arg.get_beta float_t }).get_beta float_t = arg.get_beta float_t := by
  have hz := float_zero_not_nan
  have inf_ok : ∀ x : float, x.exponent = 255 ∧ x.mantissa = 0 → rocsparselt_isnan x = false := by
    intro x hx
    simp [rocsparselt_isnan, hx.2]
  have sub_ok : ∀ x : float, x.exponent = 0 → rocsparselt_isnan x = false := by
    intro x hx
    simp [rocsparselt_isnan, hx]
  have pass_a : ∀ r : Arguments, rocsparselt_isnan r.alpha = false → r.get_alpha float_t = r.alpha := by
    intro r h
    simp [Arguments.get_alpha, Arguments.alpha_isnan, h, convert_alpha_beta, float_t]
  have pass_b : ∀ r : Arguments, rocsparselt_isnan r.beta = false → r.get_beta float_t = r.beta := by
    intro r h
    simp [Arguments.get_beta, Arguments.beta_isnan, h, convert_alpha_beta, float_t]
  have nan_a : ∀ r : Arguments, rocsparselt_isnan r.alpha = true → r.get_alpha float_t = float_zero := by
    intro r h
    simp [Arguments.get_alpha, Arguments.alpha_isnan, h, float_t]
  have nan_b : ∀ r : Arguments, rocsparselt_isnan r.beta = true → r.get_beta float_t = float_zero := by
    intro r h
    simp [Arguments.get_beta, Arguments.beta_isnan, h, float_t]
  refine ⟨⟨?_, pass_a arg⟩, ⟨?_, pass_b arg⟩, fun h => pass_a arg (inf_ok _ h),
    fun h => pass_a arg (sub_ok _ h), fun h => pass_b arg (inf_ok _ h),
    fun h => pass_b arg (sub_ok _ h), ?_, ?_, ?_⟩
  · intro h
    cases hn : rocsparselt_isnan arg.alpha with
    | false => rfl
    | true =>
      rw [nan_a arg hn] at h
      rw [← h, hz] at hn
      exact hn.symm
  · intro h
    cases hn : rocsparselt_isnan arg.beta with
    | false => rfl
    | true =>
      rw [nan_b arg hn] at h
      rw [← h, hz] at hn
      exact hn.symm
  · intro x hx
    simp only [List.mem_cons, List.mem_singleton, List.not_mem_nil, or_false] at hx
    rcases hx with rfl | rfl | rfl <;> exact ⟨rfl, rfl⟩
  · cases hn : rocsparselt_isnan arg.alpha with
    | false =>
      rw [pass_a arg hn]
      exact pass_a _ hn
    | true =>
      rw [nan_a arg hn]
      exact pass_a _ hz
  · cases hn : rocsparselt_isnan arg.beta with
    | false =>
      rw [pass_b arg hn]
      exact pass_b _ hn
    | true =>
      rw [nan_b arg hn]
      exact pass_b _ hz

/-- On the record of the example scenario beta = 2.5f is returned unchanged, and a
record whose alpha is +inf returns +inf. -/
theorem float_coefficient_unchanged_unless_nan_witness :
    (example_arg.get_beta float_t = example_arg.beta ↔
      rocsparselt_isnan example_arg.beta = false) ∧
    float_pos_inf.exponent = 255 ∧ float_pos_inf.mantissa = 0 ∧
    ({ example_arg with alpha := float_pos_inf }).get_alpha float_t = float_pos_inf :=
  ⟨(float_coefficient_unchanged_unless_nan example_arg).2.1, by decide, by decide,
   (float_coefficient_unchanged_unless_nan { example_arg with alpha := float_pos_inf }).2.2.1
     ⟨by decide, by decide⟩⟩

/-! ## Field list and identifiers: the claims -/

/-- C6: the names listed by FOR_EACH_ARGUMENT are, element by element and in length,
the data members of struct Arguments in declaration order; in particular no member
is missing from the list, none is listed twice and none is out of order. -/
theorem FOR_EACH_ARGUMENT_is_declaration_order :
    FOR_EACH_ARGUMENT.map ArgumentName.stringify = Arguments_members ∧
    FOR_EACH_ARGUMENT.length = Arguments_members.length ∧
    (∀ member ∈ Arguments_members, member ∈ FOR_EACH_ARGUMENT.map ArgumentName.stringify) ∧
    (FOR_EACH_ARGUMENT.map ArgumentName.stringify).Nodup ∧
    FOR_EACH_ARGUMENT.Nodup := by
  have h : FOR_EACH_ARGUMENT.map ArgumentName.stringify = Arguments_members := by decide
  refine ⟨h, by decide, ?_, by decide, by decide⟩
  intro member hm
  rw [h]
  exact hm

/-- C7, as stated, fails: the last enumerator e_HMM is 40, not 39, and the field list
has 41 entries, not 40. -/
theorem e_HMM_is_not_39 :
    e_ .HMM = 40 ∧ (e_ .HMM == 39) = false ∧
    FOR_EACH_ARGUMENT.length = 41 ∧ Arguments_members.length = 41 := by
  decide

/-- C7, amended: the identifier of every declared field is the zero-based position
of the field in declaration order; the identifiers of the 41 fields are pairwise
distinct and are exactly the integers 0 through 40 (e_function = 0, e_alpha = 4,
e_beta = 5, e_HMM = 40). -/
theorem e_is_declaration_position :
    (∀ NAME : ArgumentName,
      e_ NAME = Int.ofNat (Arguments_members.indexOf NAME.stringify)) ∧
    (∀ a b : ArgumentName, e_ a = e_ b → a = b) ∧
    (∀ i : Int, (∃ NAME, e_ NAME = i) ↔ 0 ≤ i ∧ i ≤ 40) ∧
    e_ .function = 0 ∧ e_alpha = 4 ∧ e_beta = 5 ∧ e_ .HMM = 40 := by
  have range : ∀ NAME : ArgumentName, 0 ≤ e_ NAME ∧ e_ NAME ≤ 40 := by
    intro NAME
    cases NAME <;> decide
  refine ⟨?_, ?_, ?_, by decide, by decide, by decide, by decide⟩
  · intro NAME
    cases NAME <;> decide
  · intro a b h
    have ha : FOR_EACH_ARGUMENT[(e_ a).toNat]? = some a := by cases a <;> rfl
    have hb : FOR_EACH_ARGUMENT[(e_ b).toNat]? = some b := by cases b <;> rfl
    rw [h, hb] at ha
    exact (Option.some.inj ha).symm
  · intro i
    constructor
    · rintro ⟨NAME, rfl⟩
      exact range NAME
    · rintro ⟨h0, h1⟩
      exact e_onto i h0 h1

/-! ## Dispatch entries: the claims -/

/-- C3: for every declared field other than alpha and beta, the dispatch entry at
the field's identifier exists and, for every formatter, record and type-tag, does
exactly one call of the formatter, with the declared name of the field (its
stringified token, which is the name of the struct member at that position) and
the raw stored value of the member; the type-tag plays no part in the call.  The
last part spells this out member by member: the entry at e_function presents
("function", arg.function), the one at e_M presents ("M", arg.M), and so on for
each of the 39 fields. -/
theorem apply_ordinary_field (NAME : ArgumentName) (hα : NAME ≠ .alpha) (hβ : NAME ≠ .beta) :
    Arguments_members[(e_ NAME).toNat]? = some NAME.stringify ∧
    (∃ entry : Closure.{u}, apply (e_ NAME) = some entry ∧
      ∀ (σ : Type u) (func : Formatter σ) (arg : Arguments) (T : NumericType)
        (tag : T.carrier) (s : σ),
        entry σ func arg T tag s = func NAME.type NAME.stringify (arg.member NAME) s) ∧
    (∀ (σ : Type u) (func : Formatter σ) (arg : Arguments) (T : NumericType)
      (tag : T.carrier) (s : σ),
      (apply.{u} (e_ .function)).map (fun entry => entry σ func arg T tag s)
        = some (func String "function" arg.function s) ∧
      (apply.{u} (e_ .name)).map (fun entry => entry σ func arg T tag s)
        = some (func String "name" arg.name s) ∧
      (apply.{u} (e_ .category)).map (fun entry => entry σ func arg T tag s)
        = some (func String "category" arg.category s) ∧
      (apply.{u} (e_ .known_bug_platforms)).map (fun entry => entry σ func arg T tag s)
        = some (func String "known_bug_platforms" arg.known_bug_platforms s) ∧
      (apply.{u} (e_ .stride_a)).map (fun entry => entry σ func arg T tag s)
        = some (func int64_t "stride_a" arg.stride_a s) ∧
      (apply.{u} (e_ .stride_b)).map (fun entry => entry σ func arg T tag s)
        = some (func int64_t "stride_b" arg.stride_b s) ∧
      (apply.{u} (e_ .stride_c)).map (fun entry => entry σ func arg T tag s)
        = some (func int64_t "stride_c" arg.stride_c s) ∧
      (apply.{u} (e_ .stride_d)).map (fun entry => entry σ func arg T tag s)
        = some (func int64_t "stride_d" arg.stride_d s) ∧
      (apply.{u} (e_ .user_allocated_workspace)).map (fun entry => entry σ func arg T tag s)
        = some (func size_t "user_allocated_workspace" arg.user_allocated_workspace s) ∧
      (apply.{u} (e_ .M)).map (fun entry => entry σ func arg T tag s)
        = some (func int64_t "M" arg.M s) ∧
      (apply.{u} (e_ .N)).map (fun entry => entry σ func arg T tag s)
        = some (func int64_t "N" arg.N s) ∧
      (apply.{u} (e_ .K)).map (fun entry => entry σ func arg T tag s)
        = some (func int64_t "K" arg.K s) ∧
      (apply.{u} (e_ .lda)).map (fun entry => entry σ func arg T tag s)
        = some (func int64_t "lda" arg.lda s) ∧
      (apply.{u} (e_ .ldb)).map (fun entry => entry σ func arg T tag s)
        = some (func int64_t "ldb" arg.ldb s) ∧
      (apply.{u} (e_ .ldc)).map (fun entry => entry σ func arg T tag s)
        = some (func int64_t "ldc" arg.ldc s) ∧
      (apply.{u} (e_ .ldd)).map (fun entry => entry σ func arg T tag s)
        = some (func int64_t "ldd" arg.ldd s) ∧
      (apply.{u} (e_ .batch_count)).map (fun entry => entry σ func arg T tag s)
        = some (func int32_t "batch_count" arg.batch_count s) ∧
      (apply.{u} (e_ .iters)).map (fun entry => entry σ func arg T tag s)
        = some (func int32_t "iters" arg.iters s) ∧
      (apply.{u} (e_ .cold_iters)).map (fun entry => entry σ func arg T tag s)
        = some (func int32_t "cold_iters" arg.cold_iters s) ∧
      (apply.{u} (e_ .algo)).map (fun entry => entry σ func arg T tag s)
        = some (func uint32_t "algo" arg.algo s) ∧
      (apply.{u} (e_ .solution_index)).map (fun entry => entry σ func arg T tag s)
        = some (func int32_t "solution_index" arg.solution_index s) ∧
      (apply.{u} (e_ .a_type)).map (fun entry => entry σ func arg T tag s)
        = some (func rocsparselt_datatype "a_type" arg.a_type s) ∧
      (apply.{u} (e_ .b_type)).map (fun entry => entry σ func arg T tag s)
        = some (func rocsparselt_datatype "b_type" arg.b_type s) ∧
      (apply.{u} (e_ .c_type)).map (fun entry => entry σ func arg T tag s)
        = some (func rocsparselt_datatype "c_type" arg.c_type s) ∧
      (apply.{u} (e_ .d_type)).map (fun entry => entry σ func arg T tag s)
        = some (func rocsparselt_datatype "d_type" arg.d_type s) ∧
      (apply.{u} (e_ .compute_type)).map (fun entry => entry σ func arg T tag s)
        = some (func rocsparselt_compute_type "compute_type" arg.compute_type s) ∧
      (apply.{u} (e_ .prune_algo)).map (fun entry => entry σ func arg T tag s)
        = some (func rocsparselt_prune_alg "prune_algo" arg.prune_algo s) ∧
      (apply.{u} (e_ .initialization)).map (fun entry => entry σ func arg T tag s)
        = some (func rocsparselt_initialization "initialization" arg.initialization s) ∧
      (apply.{u} (e_ .pad)).map (fun entry => entry σ func arg T tag s)
        = some (func uint32_t "pad" arg.pad s) ∧
      (apply.{u} (e_ .threads)).map (fun entry => entry σ func arg T tag s)
        = some (func uint16_t "threads" arg.threads s) ∧
      (apply.{u} (e_ .streams)).map (fun entry => entry σ func arg T tag s)
        = some (func uint16_t "streams" arg.streams s) ∧
      (apply.{u} (e_ .devices)).map (fun entry => entry σ func arg T tag s)
        = some (func uint8_t "devices" arg.devices s) ∧
      (apply.{u} (e_ .norm_check)).map (fun entry => entry σ func arg T tag s)
        = some (func int8_t "norm_check" arg.norm_check s) ∧
      (apply.{u} (e_ .unit_check)).map (fun entry => entry σ func arg T tag s)
        = some (func int8_t "unit_check" arg.unit_check s) ∧
      (apply.{u} (e_ .timing)).map (fun entry => entry σ func arg T tag s)
        = some (func int8_t "timing" arg.timing s) ∧
      (apply.{u} (e_ .transA)).map (fun entry => entry σ func arg T tag s)
        = some (func Char "transA" arg.transA s) ∧
      (apply.{u} (e_ .transB)).map (fun entry => entry σ func arg T tag s)
        = some (func Char "transB" arg.transB s) ∧
      (apply.{u} (e_ .c_noalias_d)).map (fun entry => entry σ func arg T tag s)
        = some (func Bool "c_noalias_d" arg.c_noalias_d s) ∧
      (apply.{u} (e_ .HMM)).map (fun entry => entry σ func arg T tag s)
        = some (func Bool "HMM" arg.HMM s)) := by
  refine ⟨?_, ⟨(APPLY NAME).2, apply_e_of_ordinary NAME hα hβ, ?_⟩, ?_⟩
  · cases NAME <;> rfl
  · intro σ func arg T tag s
    rfl
  · intro σ func arg T tag s
    exact ⟨rfl, rfl, rfl, rfl, rfl, rfl, rfl, rfl, rfl, rfl, rfl, rfl, rfl, rfl, rfl, rfl, rfl, rfl, rfl, rfl, rfl, rfl, rfl, rfl, rfl, rfl, rfl, rfl, rfl, rfl, rfl, rfl, rfl, rfl, rfl, rfl, rfl, rfl, rfl⟩

/-- The fields M, N and K: each entry calls the formatter once with the field's own
name and stored value, so the record of the example scenario (M = 128, N = 64,
K = 32) is presented as ("M", 128), ("N", 64) and ("K", 32), under the float tag
as under the complex tag. -/
theorem apply_ordinary_field_witness :
    ArgumentName.M ≠ .alpha ∧ ArgumentName.M ≠ .beta ∧
    (apply (e_ .M)).map (fun entry => entry _ record example_arg float_t float_zero [])
      = some [⟨int64_t, "M", (128 : Int)⟩] ∧
    (apply (e_ .M)).map (fun entry =>
        entry _ record example_arg complex_float_t ⟨float_nan, float_nan⟩ [])
      = some [⟨int64_t, "M", (128 : Int)⟩] ∧
    (apply (e_ .N)).map (fun entry => entry _ record example_arg float_t float_zero [])
      = some [⟨int64_t, "N", (64 : Int)⟩] ∧
    (apply (e_ .K)).map (fun entry => entry _ record example_arg float_t float_zero [])
      = some [⟨int64_t, "K", (32 : Int)⟩] :=
  have hM := apply_ordinary_field.{1} .M (by decide) (by decide)
  ⟨by decide, by decide,
   (hM.2.2 _ record example_arg float_t float_zero []).2.2.2.2.2.2.2.2.2.1,
   (hM.2.2 _ record example_arg complex_float_t ⟨float_nan, float_nan⟩ []).2.2.2.2.2.2.2.2.2.1,
   (hM.2.2 _ record example_arg float_t float_zero []).2.2.2.2.2.2.2.2.2.2.1,
   (hM.2.2 _ record example_arg float_t float_zero []).2.2.2.2.2.2.2.2.2.2.2.1⟩

/-- C4: for every record, formatter and type-tag T, the entry at e_alpha does exactly
one call of the formatter, with the name "alpha" and the value get_alpha<T>(), and
the entry at e_beta exactly one, with "beta" and get_beta<T>(); under the float tag
neither presented value is ever a NaN; the record with alpha = NaN and beta = 2.5
presents ("alpha", +0.0f) and ("beta", 2.5f) under the float tag. -/
theorem apply_alpha_beta_converted (σ : Type u) (func : Formatter σ) (arg : Arguments)
    (T : NumericType) (tag : T.carrier) (s : σ) :
    (∃ entry : Closure.{u}, apply e_alpha = some entry ∧
      entry σ func arg T tag s = func T.carrier "alpha" (arg.get_alpha T) s) ∧
    (∃ entry : Closure.{u}, apply e_beta = some entry ∧
      entry σ func arg T tag s = func T.carrier "beta" (arg.get_beta T) s) ∧
    rocsparselt_isnan (arg.get_alpha float_t) = false ∧
    rocsparselt_isnan (arg.get_beta float_t) = false ∧
    (apply e_alpha).map (fun entry => entry _ record example_arg float_t float_zero [])
      = some [⟨float, "alpha", float_zero⟩] ∧
    (apply e_beta).map (fun entry => entry _ record example_arg float_t float_zero [])
      = some [⟨float, "beta", float_2_5⟩] := by
  refine ⟨⟨apply_e_alpha, apply_at_e_alpha, rfl⟩, ⟨apply_e_beta, apply_at_e_beta, rfl⟩,
    ?_, ?_, rfl, rfl⟩
  · cases hn : rocsparselt_isnan arg.alpha with
    | false =>
      simp [Arguments.get_alpha, Arguments.alpha_isnan, hn, convert_alpha_beta, float_t]
    | true =>
      simp [Arguments.get_alpha, Arguments.alpha_isnan, hn, float_t, float_zero_not_nan]
  · cases hn : rocsparselt_isnan arg.beta with
    | false =>
      simp [Arguments.get_beta, Arguments.beta_isnan, hn, convert_alpha_beta, float_t]
    | true =>
      simp [Arguments.get_beta, Arguments.beta_isnan, hn, float_t, float_zero_not_nan]

/-- C5, as stated, fails on the count: the walk over the field list of the record of
the example scenario collects 41 names, not 40. -/
theorem walk_collects_41_not_40 :
    (walk _ record_name example_arg float_t float_zero FOR_EACH_ARGUMENT []).map List.length
      = some 41 ∧
    ((walk _ record_name example_arg float_t float_zero FOR_EACH_ARGUMENT []).map List.length
      == some 40) = false := by
  rw [walk_eq_foldl]
  decide

/-- C5, amended: for every record and type-tag, walking FOR_EACH_ARGUMENT in order
and invoking the dispatch entry at each field's identifier with a collecting
formatter yields exactly one (name, value) pair per declared field, 41 in all, the
declared names each exactly once and in declaration order; every declared field is
in the list and its identifier has a dispatch entry, so none is omitted. -/
theorem walk_presents_every_field (arg : Arguments) (T : NumericType) (tag : T.carrier) :
    (∀ NAME : ArgumentName,
      NAME ∈ FOR_EACH_ARGUMENT ∧ (apply.{1} (e_ NAME)).isSome = true) ∧
    walk _ record_name arg T tag FOR_EACH_ARGUMENT [] = some Arguments_members ∧
    (∃ log : List Presented,
      walk _ record arg T tag FOR_EACH_ARGUMENT [] = some log ∧
      log.map Presented.name = Arguments_members ∧ log.length = 41) ∧
    Arguments_members.length = 41 ∧ Arguments_members.Nodup := by
  refine ⟨?_, ?_, ?_, by decide, by decide⟩
  · intro NAME
    refine ⟨mem_FOR_EACH_ARGUMENT NAME, ?_⟩
    rw [apply_e]
    rfl
  · rw [walk_eq_foldl, foldl_record_name]
    decide
  · obtain ⟨ps, hps, hnames⟩ := foldl_record arg T tag FOR_EACH_ARGUMENT []
    have hdecl : FOR_EACH_ARGUMENT.map ArgumentName.stringify = Arguments_members := by decide
    refine ⟨ps, ?_, ?_, ?_⟩
    · rw [walk_eq_foldl, hps]
      rfl
    · rw [hnames, hdecl]
    · have hlen := congrArg List.length hnames
      simp only [List.length_map] at hlen
      rw [hlen]
      decide

/-- C8, as stated, fails at -1 (and likewise at -2): no declared field has the
identifier -1, yet the lookup at -1 yields a lambda, and invoking it calls the
formatter (with the name "alpha"). -/
theorem apply_minus_one_is_not_null :
    (FOR_EACH_ARGUMENT.map e_).contains (-1) = false ∧
    (apply.{0} (-1)).isSome = true ∧
    (apply (-1)).map (fun entry => entry _ record_name example_arg float_t float_zero [])
      = some ["alpha"] ∧
    (FOR_EACH_ARGUMENT.map e_).contains (-2) = false ∧
    (apply.{0} (-2)).isSome = true := by
  refine ⟨by decide, rfl, rfl, by decide, rfl⟩

/-- C8, amended: for every integer that is not the identifier of a declared field
and is neither of the two reserved values -1 and -2, the lookup in the dispatch
table yields no lambda (the null default of the primary template), so it cannot
invoke the formatter. -/
theorem apply_undeclared_is_null (id : Int) (hfield : ∀ NAME : ArgumentName, e_ NAME ≠ id)
    (h1 : id ≠ -1) (h2 : id ≠ -2) :
    apply.{u} id = none := by
  apply apply_none_of_outside
  by_contra hin
  have h0 : 0 ≤ id := by omega
  have h40 : id ≤ 40 := by omega
  obtain ⟨NAME, hN⟩ := e_onto id h0 h40
  exact hfield NAME hN

/-- The integer 41 is no identifier and not reserved: the lookup there is null; so it
is at -3. -/
theorem apply_undeclared_is_null_witness :
    (∀ NAME : ArgumentName, e_ NAME ≠ 41) ∧ (41 : Int) ≠ -1 ∧ (41 : Int) ≠ -2 ∧
    apply.{0} 41 = none :=
  have hfield : ∀ NAME : ArgumentName, e_ NAME ≠ 41 := by
    intro NAME
    cases NAME <;> decide
  ⟨hfield, by decide, by decide, apply_undeclared_is_null 41 hfield (by decide) (by decide)⟩

/-- C9, as stated, fails: on the record with alpha = NaN the entry at -1 presents
("alpha", NaN) under the float tag, where the converted alpha is +0.0f; the entry
at -2 presents the stored beta. -/
theorem apply_minus_one_presents_nan :
    (apply (-1)).map (fun entry => entry _ record example_arg float_t float_zero [])
      = some [⟨float, "alpha", float_nan⟩] ∧
    rocsparselt_isnan float_nan = true ∧
    example_arg.get_alpha float_t = float_zero ∧
    (float_nan == float_zero) = false ∧
    (apply (-2)).map (fun entry =>
        entry _ record { example_arg with beta := float_nan } float_t float_zero [])
      = some [⟨float, "beta", float_nan⟩] := by
  refine ⟨rfl, by decide, rfl, by decide, rfl⟩

/-- C9, amended: the two reserved negative identifiers hold the entries that the
APPLY loop makes for alpha and beta, not the overrides: for every record, formatter
and type-tag, the entry at -1 does one call of the formatter with "alpha" and the
raw stored alpha (a NaN stays a NaN) and the entry at -2 one call with "beta" and
the raw stored beta; the identifiers of alpha and beta themselves are 4 and 5. -/
theorem apply_reserved_raw (σ : Type u) (func : Formatter σ) (arg : Arguments)
    (T : NumericType) (tag : T.carrier) (s : σ) :
    (∃ entry : Closure.{u}, apply (-1) = some entry ∧
      entry σ func arg T tag s = func float "alpha" arg.alpha s) ∧
    (∃ entry : Closure.{u}, apply (-2) = some entry ∧
      entry σ func arg T tag s = func float "beta" arg.beta s) ∧
    e_alpha = 4 ∧ e_beta = 5 :=
  ⟨⟨(APPLY .alpha).2, apply_at_minus_one, rfl⟩, ⟨(APPLY .beta).2, apply_at_minus_two, rfl⟩,
   by decide, by decide⟩

end rocsparselt
